import Mathlib

/-!
Shallow embedding of the concept-suppression rule engine
(`data_steward/cdr_cleaner/cleaning_rules/deid/concept_suppression.py`)
and the slack alert utility (`data_steward/utils/slack_alerts.py`).

The rule engine generates BigQuery SQL from Jinja templates.  We embed each
generated query as a structured value mirroring exactly the fields the
source passes to `render`, and give the generated SQL shapes a relational
semantics over an explicit row model (LEFT JOIN with NULL padding,
COALESCE(...) IS NOT NULL filtering, SELECT d.* projection).
-/

namespace Curation

/-- A row of a clinical domain table: `id` models the per-row identifier
column `{table}_id`; `concepts` gives the (nullable) value of each
concept-id column by column name. -/
structure Row where
  id : Int
  concepts : String → Option Int

/-- Semantics of one `LEFT JOIN lookup AS s_i ON d.f = s_i.concept_id`
for a single driving row: the list of `s_i.concept_id` values produced,
one per matching lookup row, or a single NULL when nothing matches
(LEFT JOIN keeps the driving row with NULL padding).  An SQL equality
comparison with a NULL driving value matches nothing. -/
def leftJoinColumn (lookup : List Int) (v : Option Int) : List (Option Int) :=
  let hits := lookup.filter (fun c => v = some c)
  if hits.isEmpty then [none] else hits.map some

/-- The tuples of joined `s_1.concept_id, ..., s_k.concept_id` values for one
driving row `r`, one LEFT JOIN per concept-id column, as in the sandbox
query templates (`BQ_LOOKUP_TABLE_SANDBOX_QUERY_TEMPLATE` and
`IN_MEMORY_SANDBOX_QUERY_TEMPLATE` both emit this same join shape). -/
def joinedTuples (lookup : List Int) (r : Row) : List String → List (List (Option Int))
  | [] => [[]]
  | f :: fs =>
      (leftJoinColumn lookup (r.concepts f)).flatMap
        (fun v => (joinedTuples lookup r fs).map (fun t => v :: t))

/-- Semantics of `COALESCE(s_1.concept_id, ..., s_k.concept_id) IS NOT NULL`:
at least one joined value is non-NULL. -/
def coalesceNotNull (t : List (Option Int)) : Bool :=
  t.any (fun v => v.isSome)

/-- Semantics of the common sandbox query shape of both templates:
`SELECT d.* FROM domain_table AS d LEFT JOIN ... LEFT JOIN ...
WHERE COALESCE(...) IS NOT NULL`.  The driving row `d` is emitted once per
surviving joined tuple (SELECT d.* projects away the joined columns). -/
def evalSandboxJoin (lookup : List Int) (fields : List String) (rows : List Row) :
    List Row :=
  rows.flatMap (fun d =>
    ((joinedTuples lookup d fields).filter coalesceNotNull).map (fun _ => d))

/-- Write dispositions from `constants.bq_utils` used by the rule. -/
inductive Disposition where
  | WRITE_TRUNCATE
  | WRITE_APPEND
deriving DecidableEq, Repr

/-- The render parameters of `SUPPRESSION_RECORD_QUERY_TEMPLATE`:
`SELECT d.* FROM project.dataset.domain_table AS d LEFT JOIN
project.sandbox_dataset.sandbox_table AS s ON d.domain_table_id =
s.domain_table_id WHERE s.domain_table_id IS NULL`. -/
structure SuppressionQuery where
  project : String
  dataset : String
  sandbox_dataset : String
  domain_table : String
  sandbox_table : String
deriving DecidableEq, Repr

/-- The render parameters of `BQ_LOOKUP_TABLE_SANDBOX_QUERY_TEMPLATE`: one
LEFT JOIN of `project.sandbox_dataset.suppression_concept` per concept
field, `WHERE COALESCE(s1.concept_id, ..., sk.concept_id) IS NOT NULL`. -/
structure BqLookupSandboxQuery where
  project : String
  dataset : String
  sandbox_dataset : String
  domain_table : String
  concept_fields : List String
  suppression_concept : String
deriving DecidableEq, Repr

/-- The render parameters of `IN_MEMORY_SANDBOX_QUERY_TEMPLATE`: a
`suppressed_concepts` CTE built by `UNNEST` of the literal concept-id list,
then the same joins and COALESCE predicate as the lookup-table template. -/
structure InMemorySandboxQuery where
  project : String
  dataset : String
  sandbox_dataset : String
  domain_table : String
  concept_fields : List String
  suppressed_concept_ids : List Int
deriving DecidableEq, Repr

/-- The queries generated by the rule engine, as structured values. -/
inductive Query where
  | sandboxLookup (q : BqLookupSandboxQuery)
  | sandboxInMemory (q : InMemorySandboxQuery)
  | suppression (q : SuppressionQuery)
  | dropEmptySandbox (project sandbox_dataset sandbox_table : String)
deriving DecidableEq, Repr

/-- The dict returned by the query-building methods, keyed in the source by
`cdr_consts.QUERY`, `cdr_consts.DESTINATION_DATASET`,
`cdr_consts.DESTINATION_TABLE`, `cdr_consts.DISPOSITION`.  Cleanup queries
carry no destination, hence the optional fields. -/
structure QuerySpec where
  query : Query
  destination_dataset : Option String
  destination_table : Option String
  disposition : Option Disposition
deriving DecidableEq, Repr

/-- Modelled from the spec: `BaseCleaningRule.sandbox_table_for` is not under
`src/`; the spec requires only that the sandbox table name is a
deterministic, collision-free function of the original table name. -/
def sandbox_table_for (table_name : String) : String :=
  "sandbox_" ++ table_name

/-- Modelled from the spec: `get_delete_empty_sandbox_tables_queries` (from
`cdr_cleaner.cleaning_rules.base_cleaning_rule`) is not under `src/`; the
spec describes it as appending cleanup QuerySpecs that drop any sandbox
table that ended up empty, one cleanup candidate per sandbox table. -/
def get_delete_empty_sandbox_tables_queries (project_id sandbox_dataset_id : String)
    (sandbox_tablenames : List String) : List QuerySpec :=
  sandbox_tablenames.map (fun t =>
    { query := Query.dropEmptySandbox project_id sandbox_dataset_id t
      destination_dataset := none
      destination_table := none
      disposition := none })

/-- The table filter applied in `AbstractConceptSuppression.__init__`:
keep a table when `get_concept_id_fields(table_name)` is truthy (a
non-empty field list) and `has_domain_table_id(table_name)` holds.  The two
helpers live in the `resources` module, which is not under `src/`; they are
taken as parameters describing the schema. -/
def filter_affected_tables (get_concept_id_fields : String → List String)
    (has_domain_table_id : String → Bool) (affected_tables : List String) :
    List String :=
  affected_tables.filter (fun table_name =>
    !(get_concept_id_fields table_name).isEmpty && has_domain_table_id table_name)

/-- State of an `AbstractConceptSuppression` rule after construction.  The
abstract method `get_sandbox_query` is a field supplied by the concrete
strategy. -/
structure AbstractConceptSuppression where
  project_id : String
  dataset_id : String
  sandbox_dataset_id : String
  issue_numbers : List String
  description : String
  affected_datasets : List String
  affected_tables : List String
  get_sandbox_query : String → QuerySpec

/-- Embedding of `AbstractConceptSuppression.get_suppression_query`. -/
def get_suppression_query (r : AbstractConceptSuppression) (table_name : String) :
    QuerySpec :=
  { query := Query.suppression
      { project := r.project_id
        dataset := r.dataset_id
        sandbox_dataset := r.sandbox_dataset_id
        domain_table := table_name
        sandbox_table := sandbox_table_for table_name }
    destination_dataset := some r.dataset_id
    disposition := some Disposition.WRITE_TRUNCATE
    destination_table := some table_name }

/-- Embedding of `AbstractConceptSuppression.get_sandbox_tablenames`. -/
def get_sandbox_tablenames (r : AbstractConceptSuppression) : List String :=
  r.affected_tables.map (fun affected_table => sandbox_table_for affected_table)

/-- Embedding of `AbstractConceptSuppression.get_query_specs`: sandbox
queries for every affected table, then suppression queries for every
affected table, then the cleanup queries for empty sandbox tables. -/
def get_query_specs (r : AbstractConceptSuppression) : List QuerySpec :=
  (r.affected_tables.map (fun table_name => r.get_sandbox_query table_name)) ++
  (r.affected_tables.map (fun table_name => get_suppression_query r table_name)) ++
  get_delete_empty_sandbox_tables_queries r.project_id r.sandbox_dataset_id
    (get_sandbox_tablenames r)

/-- Recognizer for the cleanup specs appended at the end of
`get_query_specs`. -/
def isCleanupSpec (spec : QuerySpec) : Bool :=
  match spec.query with
  | Query.dropEmptySandbox _ _ _ => true
  | _ => false

/-- State of an `AbstractBqLookupTableConceptSuppression` rule: the base
configuration plus the name of the persisted concept suppression lookup
table. -/
structure AbstractBqLookupTableConceptSuppression where
  project_id : String
  dataset_id : String
  sandbox_dataset_id : String
  affected_tables : List String
  concept_suppression_lookup_table : String

/-- Embedding of `AbstractBqLookupTableConceptSuppression.get_sandbox_query`.
The schema helper `get_concept_id_fields` (module `resources`, not under
`src/`) is a parameter. -/
def bq_lookup_get_sandbox_query (get_concept_id_fields : String → List String)
    (r : AbstractBqLookupTableConceptSuppression) (table_name : String) : QuerySpec :=
  { query := Query.sandboxLookup
      { project := r.project_id
        dataset := r.dataset_id
        sandbox_dataset := r.sandbox_dataset_id
        domain_table := table_name
        concept_fields := get_concept_id_fields table_name
        suppression_concept := r.concept_suppression_lookup_table }
    destination_table := some (sandbox_table_for table_name)
    disposition := some Disposition.WRITE_TRUNCATE
    destination_dataset := some r.sandbox_dataset_id }

/-- State of an `AbstractInMemoryLookupTableConceptSuppression` rule: the
base configuration plus the value returned by the abstract method
`get_suppressed_concept_ids`. -/
structure AbstractInMemoryLookupTableConceptSuppression where
  project_id : String
  dataset_id : String
  sandbox_dataset_id : String
  affected_tables : List String
  get_suppressed_concept_ids : List Int

/-- Embedding of
`AbstractInMemoryLookupTableConceptSuppression.get_sandbox_query`. -/
def in_memory_get_sandbox_query (get_concept_id_fields : String → List String)
    (r : AbstractInMemoryLookupTableConceptSuppression) (table_name : String) :
    QuerySpec :=
  { query := Query.sandboxInMemory
      { project := r.project_id
        dataset := r.dataset_id
        sandbox_dataset := r.sandbox_dataset_id
        domain_table := table_name
        concept_fields := get_concept_id_fields table_name
        suppressed_concept_ids := r.get_suppressed_concept_ids }
    destination_table := some (sandbox_table_for table_name)
    disposition := some Disposition.WRITE_TRUNCATE
    destination_dataset := some r.sandbox_dataset_id }

/-- Semantics of the CTE `suppressed_concepts AS (SELECT concept_id FROM
UNNEST([...]) AS concept_id)`: the literal list itself. -/
def unnestSuppressedConcepts (ids : List Int) : List Int := ids

/-- Semantics of one `LEFT JOIN sandbox AS s ON d.domain_table_id =
s.domain_table_id` for a single driving row: the joined `s.domain_table_id`
values, NULL-padded when nothing matches.  The per-row identifier is the
table's key and is modelled as non-null. -/
def sandboxIdJoinColumn (sandbox_rows : List Row) (d : Row) : List (Option Int) :=
  let hits := sandbox_rows.filter (fun s => s.id == d.id)
  if hits.isEmpty then [none] else hits.map (fun s => some s.id)

/-- Semantics of the suppression query shape: `SELECT d.* FROM domain AS d
LEFT JOIN sandbox AS s ON d.id = s.id WHERE s.id IS NULL`. -/
def evalSuppressionJoin (domain_rows sandbox_rows : List Row) : List Row :=
  domain_rows.flatMap (fun d =>
    ((sandboxIdJoinColumn sandbox_rows d).filter (fun o => o.isNone)).map (fun _ => d))

/-- Evaluation of a generated query in an environment: `lookup_env` gives
the `concept_id` column of a persisted lookup table by name, `db` gives the
rows of `(dataset, table)`.  The cleanup query is DDL and returns no
rows. -/
def evalQuery (q : Query) (lookup_env : String → List Int)
    (db : String → String → List Row) : List Row :=
  match q with
  | Query.sandboxLookup qb =>
      evalSandboxJoin (lookup_env qb.suppression_concept) qb.concept_fields
        (db qb.dataset qb.domain_table)
  | Query.sandboxInMemory qm =>
      evalSandboxJoin (unnestSuppressedConcepts qm.suppressed_concept_ids)
        qm.concept_fields (db qm.dataset qm.domain_table)
  | Query.suppression qs =>
      evalSuppressionJoin (db qs.dataset qs.domain_table)
        (db qs.sandbox_dataset qs.sandbox_table)
  | Query.dropEmptySandbox _ _ _ => []

/-- Exceptions the query engine boundary can raise from `query_job.result()`
(per the spec's interface: transport failure or timeout). -/
inductive EngineError where
  | googleCloudError (msg : String)
  | timeoutError (msg : String)
deriving DecidableEq, Repr

/-- A row of the metadata query result; `dict(row.items())[TABLE_ID]`
extracts its `table_id` value. -/
structure BqRow where
  table_id : String
deriving DecidableEq, Repr

/-- The query engine boundary, per the spec: `job.result() -> rows | raises`
and `job.errors -> optional structured error list`.  The rows object
returned by `result()` carries only the rows; in particular it has no
`errors` or `job_id` attribute of its own (those live on the job). -/
structure QueryJob where
  result : Except EngineError (List BqRow)
  errors : Option (List String)
deriving Repr

/-- Python truthiness of `query_job.errors`: `None` and `[]` are falsy, a
non-empty list is truthy. -/
def jobErrorsTruthy : Option (List String) → Bool
  | none => false
  | some l => !l.isEmpty

/-- How a call to `get_tables_in_dataset` can terminate.  `ok` is a normal
return; the other constructors are uncaught exceptions escaping the call:
`reraised` is the claimed re-raise of the engine error, `runtimeError` the
claimed wrap of the embedded job errors, `unboundLocalError` a Python
`UnboundLocalError`, and `attributeError` an access to a missing
attribute. -/
inductive GetTablesOutcome where
  | ok (tables : List String)
  | reraised (e : EngineError)
  | runtimeError (details : List String)
  | unboundLocalError
  | attributeError (attr : String)
deriving DecidableEq, Repr

/-- Embedding of `get_tables_in_dataset`, applied to the job returned by
`client.query(...)`.  Control flow of the source:

* `result = query_job.result()` raises: the `except` block evaluates
  `f"Error running job \x7bresult.job_id\x7d: \x7be\x7d"`, but the local
  `result` was never assigned on this path, so the f-string raises
  `UnboundLocalError` — nothing is logged and the original error is not
  re-raised.
* `result()` returns but `query_job.errors` is truthy: the source
  evaluates `RuntimeError(result.errors)`; `result` is the rows object,
  which has no `errors` attribute (the job does), so an `AttributeError`
  is raised at that point; it is not in the `except` tuple
  `(GoogleCloudError, TimeoutError, RuntimeError)` and escapes.
* otherwise: return `[dict(row.items())[TABLE_ID] for row in result]`. -/
def get_tables_in_dataset (query_job : QueryJob) : GetTablesOutcome :=
  match query_job.result with
  | Except.error _ => GetTablesOutcome.unboundLocalError
  | Except.ok rows =>
      if jobErrorsTruthy query_job.errors then GetTablesOutcome.attributeError "errors"
      else GetTablesOutcome.ok (rows.map (fun row => row.table_id))

/-- Semantics of a rendered `GET_ALL_TABLES_QUERY_TEMPLATE` query:
`SELECT table_id FROM project.dataset.__TABLES__ WHERE table_id IN
(table_names)`, evaluated over the `table_id` column of `__TABLES__`. -/
def metadataQueryRows (dataset_table_ids table_names : List String) : List BqRow :=
  (dataset_table_ids.filter (fun t => table_names.contains t)).map (fun t => ⟨t⟩)

namespace Slack

/-- Environment variable names from `utils/slack_alerts.py`. -/
def SLACK_TOKEN : String := "SLACK_TOKEN"

def SLACK_CHANNEL : String := "SLACK_CHANNEL"

def UNSET_SLACK_TOKEN_MSG : String :=
  "Slack token not set in environment variable " ++ SLACK_TOKEN

def UNSET_SLACK_CHANNEL_MSG : String :=
  "Slack channel not set in environment variable " ++ SLACK_CHANNEL

/-- A `slack.errors.SlackApiError` raised by the web client. -/
structure SlackApiError where
  msg : String
deriving DecidableEq, Repr

/-- The response of `client.conversations_list`: its HTTP status code and
the `name` of each entry of `response.data["channels"]`. -/
structure ConversationsResponse where
  status_code : Nat
  channels : List String
deriving DecidableEq, Repr

/-- The response of `client.chat_postMessage`, opaque to this module. -/
structure SlackResponse where
  data : String
deriving DecidableEq, Repr

/-- The exception kinds the slack utility deals in: the module's own
`SlackConfigurationError` (a distinct configuration-error kind) versus a
delivery failure from the Slack web client. -/
inductive SlackFailure where
  | configurationError (msg : String)
  | apiError (e : SlackApiError)
deriving DecidableEq, Repr

/-- The external world of the slack utility: `os.environ`, and the outcomes
of the two web-client network calls. -/
structure SlackEnv where
  environ : String → Option String
  conversations_list : Except SlackApiError ConversationsResponse
  chat_postMessage : String → String → Except SlackApiError SlackResponse

/-- Network calls the web client can perform. -/
inductive NetCall where
  | chat_postMessage (channel text : String)
  | conversations_list
deriving DecidableEq, Repr

/-- Embedding of `_get_slack_token`: raises
`SlackConfigurationError(UNSET_SLACK_TOKEN_MSG)` when `SLACK_TOKEN` is not
among the environment keys, otherwise returns the value. -/
def get_slack_token (environ : String → Option String) : Except String String :=
  match environ SLACK_TOKEN with
  | none => Except.error UNSET_SLACK_TOKEN_MSG
  | some tok => Except.ok tok

/-- Embedding of `_get_slack_channel_name`. -/
def get_slack_channel_name (environ : String → Option String) :
    Except String String :=
  match environ SLACK_CHANNEL with
  | none => Except.error UNSET_SLACK_CHANNEL_MSG
  | some ch => Except.ok ch

/-- The `slack.WebClient` object; constructing it performs no network
call. -/
structure WebClient where
  token : String
deriving DecidableEq, Repr

/-- Embedding of `_get_slack_client`. -/
def get_slack_client (environ : String → Option String) :
    Except String WebClient :=
  match get_slack_token environ with
  | Except.error m => Except.error m
  | Except.ok tok => Except.ok ⟨tok⟩

/-- Embedding of `post_message`: builds the client (raising the
configuration error when the token is unset), reads the channel name
(raising the configuration error when it is unset), then performs the one
network call `chat_postMessage`.  The first component is the list of
network calls performed, in order. -/
def post_message (env : SlackEnv) (text : String) :
    List NetCall × Except SlackFailure SlackResponse :=
  match get_slack_client env.environ with
  | Except.error m => ([], Except.error (SlackFailure.configurationError m))
  | Except.ok _slack_client =>
      match get_slack_channel_name env.environ with
      | Except.error m => ([], Except.error (SlackFailure.configurationError m))
      | Except.ok slack_channel_name =>
          ([NetCall.chat_postMessage slack_channel_name text],
            (env.chat_postMessage slack_channel_name text).mapError SlackFailure.apiError)

/-- Embedding of `is_channel_available`: the `try` block builds the client,
reads the channel name and lists conversations; `SlackConfigurationError`
and `SlackApiError` are caught, logged (`logging.error(e)`, first
component) and lead to the final `return False`; `True` is returned only
from inside the `status_code == 200` branch when a listed channel name
equals the configured one.  Every exception the body can raise is caught,
so the embedding is a total function into `Bool`. -/
def is_channel_available (env : SlackEnv) : List String × Bool :=
  match get_slack_client env.environ with
  | Except.error m => ([m], false)
  | Except.ok _client =>
      match get_slack_channel_name env.environ with
      | Except.error m => ([m], false)
      | Except.ok channel_name =>
          match env.conversations_list with
          | Except.error e => ([e.msg], false)
          | Except.ok response =>
              if response.status_code == 200 &&
                  response.channels.contains channel_name then ([], true)
              else ([], false)

end Slack

/-- A concrete row used by the witnesses: its column `concept_a` holds 10
and its column `concept_b` holds the suppressed concept 99. -/
def demoRow : Row :=
  { id := 1
    concepts := fun f =>
      if f = "concept_a" then some 10
      else if f = "concept_b" then some 99
      else none }

/-- A concrete schema for the witnesses: every table has the two concept-id
columns `concept_a` and `concept_b`. -/
def demoGetFields : String → List String :=
  fun _ => ["concept_a", "concept_b"]

/-- A concrete lookup-table rule instance for the witnesses. -/
def demoBqRule : AbstractBqLookupTableConceptSuppression :=
  { project_id := "proj"
    dataset_id := "ds"
    sandbox_dataset_id := "sb_ds"
    affected_tables := ["condition_occurrence"]
    concept_suppression_lookup_table := "suppression_lookup" }

/-- A concrete in-memory rule instance for the witnesses, denylisting the
single concept 99. -/
def demoInMemoryRule : AbstractInMemoryLookupTableConceptSuppression :=
  { project_id := "proj"
    dataset_id := "ds"
    sandbox_dataset_id := "sb_ds"
    affected_tables := ["condition_occurrence"]
    get_suppressed_concept_ids := [99] }

/-- Contents of the persisted lookup tables for the witnesses: the table
`suppression_lookup` holds exactly the concept 99. -/
def demoLookupEnv : String → List Int :=
  fun n => if n = "suppression_lookup" then [99] else []

/-- Table contents for the witnesses: `ds.condition_occurrence` holds the
single demo row. -/
def demoDb : String → String → List Row :=
  fun dataset table =>
    if dataset = "ds" && table = "condition_occurrence" then [demoRow] else []

/-- A slack environment with neither variable configured, for the
witnesses. -/
def demoSlackEnvNoConfig : Slack.SlackEnv :=
  { environ := fun _ => none
    conversations_list := Except.error ⟨"api failure"⟩
    chat_postMessage := fun _ _ => Except.error ⟨"api failure"⟩ }

/- ------------------------------------------------------------------ -/
/- Theorems.                                                          -/
/- ------------------------------------------------------------------ -/

theorem leftJoinColumn_ne_nil (lookup : List Int) (v : Option Int) :
    leftJoinColumn lookup v ≠ [] := by
  unfold leftJoinColumn
  by_cases h : (lookup.filter (fun c => v = some c)).isEmpty
  · simp [h]
  · rw [if_neg h]
    simp only [ne_eq, List.map_eq_nil_iff]
    intro hnil
    exact h (by simp [hnil])

theorem joinedTuples_ne_nil (lookup : List Int) (r : Row) (fields : List String) :
    joinedTuples lookup r fields ≠ [] := by
  induction fields with
  | nil => simp [joinedTuples]
  | cons f fs ih =>
      simp only [joinedTuples, ne_eq, List.flatMap_eq_nil_iff]
      intro h
      rcases List.exists_mem_of_ne_nil _ (leftJoinColumn_ne_nil lookup (r.concepts f)) with
        ⟨v, hv⟩
      have := h v hv
      simp only [List.map_eq_nil_iff] at this
      exact ih this

/-- A joined value is non-NULL exactly when the lookup list holds the
(non-NULL) driving value. -/
theorem exists_isSome_leftJoinColumn (lookup : List Int) (v : Option Int) :
    (∃ o ∈ leftJoinColumn lookup v, o.isSome = true) ↔ ∃ c ∈ lookup, v = some c := by
  have hmem : ∀ c, c ∈ lookup.filter (fun c => v = some c) ↔ c ∈ lookup ∧ v = some c := by
    intro c
    simp [List.mem_filter]
  unfold leftJoinColumn
  by_cases h : (lookup.filter (fun c => v = some c)).isEmpty
  · rw [if_pos h]
    rw [List.isEmpty_iff] at h
    constructor
    · rintro ⟨o, ho, hs⟩
      simp only [List.mem_singleton] at ho
      subst ho
      simp at hs
    · rintro ⟨c, hc, hv⟩
      have hcf : c ∈ lookup.filter (fun c => v = some c) := (hmem c).mpr ⟨hc, hv⟩
      rw [h] at hcf
      simp at hcf
  · rw [if_neg h]
    constructor
    · rintro ⟨o, ho, _⟩
      rcases List.mem_map.mp ho with ⟨c, hc, rfl⟩
      rcases (hmem c).mp hc with ⟨hcl, hcv⟩
      exact ⟨c, hcl, hcv⟩
    · rintro ⟨c, hc, hv⟩
      exact ⟨some c, List.mem_map.mpr ⟨c, (hmem c).mpr ⟨hc, hv⟩, rfl⟩, rfl⟩

/-- Some joined tuple survives the COALESCE filter exactly when some
concept-id column of the row holds a denylisted concept (OR over the
columns). -/
theorem exists_coalesceNotNull_joinedTuples (lookup : List Int) (r : Row)
    (fields : List String) :
    (∃ t ∈ joinedTuples lookup r fields, coalesceNotNull t = true) ↔
      ∃ f ∈ fields, ∃ c ∈ lookup, r.concepts f = some c := by
  induction fields with
  | nil => simp [joinedTuples, coalesceNotNull]
  | cons f fs ih =>
      constructor
      · rintro ⟨t, ht, hc⟩
        simp only [joinedTuples, List.mem_flatMap, List.mem_map] at ht
        rcases ht with ⟨v, hv, t', ht', rfl⟩
        simp only [coalesceNotNull, List.any_cons, Bool.or_eq_true] at hc
        rcases hc with hc | hc
        · rcases (exists_isSome_leftJoinColumn lookup (r.concepts f)).mp ⟨v, hv, hc⟩ with
            ⟨c, hcl, hcv⟩
          exact ⟨f, List.mem_cons_self f fs, c, hcl, hcv⟩
        · rcases ih.mp ⟨t', ht', hc⟩ with ⟨g, hg, c, hcl, hcv⟩
          exact ⟨g, List.mem_cons_of_mem f hg, c, hcl, hcv⟩
      · rintro ⟨g, hg, c, hcl, hcv⟩
        rcases List.mem_cons.mp hg with rfl | hg
        · rcases (exists_isSome_leftJoinColumn lookup (r.concepts g)).mpr ⟨c, hcl, hcv⟩ with
            ⟨v, hv, hs⟩
          rcases List.exists_mem_of_ne_nil _ (joinedTuples_ne_nil lookup r fs) with ⟨t', ht'⟩
          refine ⟨v :: t', ?_, ?_⟩
          · simp only [joinedTuples, List.mem_flatMap]
            exact ⟨v, hv, List.mem_map.mpr ⟨t', ht', rfl⟩⟩
          · simp [coalesceNotNull, hs]
        · rcases ih.mpr ⟨g, hg, c, hcl, hcv⟩ with ⟨t', ht', hc'⟩
          rcases List.exists_mem_of_ne_nil _ (leftJoinColumn_ne_nil lookup (r.concepts f)) with
            ⟨v, hv⟩
          refine ⟨v :: t', ?_, ?_⟩
          · simp only [joinedTuples, List.mem_flatMap]
            exact ⟨v, hv, List.mem_map.mpr ⟨t', ht', rfl⟩⟩
          · simp only [coalesceNotNull, List.any_cons, Bool.or_eq_true]
            exact Or.inr hc'

/-- Membership characterisation of the sandbox join semantics: a row is
selected exactly when it is in the table and at least one of its concept-id
columns holds a denylisted concept. -/
theorem mem_evalSandboxJoin (lookup : List Int) (fields : List String)
    (rows : List Row) (r : Row) :
    r ∈ evalSandboxJoin lookup fields rows ↔
      r ∈ rows ∧ ∃ f ∈ fields, ∃ c ∈ lookup, r.concepts f = some c := by
  unfold evalSandboxJoin
  simp only [List.mem_flatMap, List.mem_map, List.mem_filter]
  constructor
  · rintro ⟨d, hd, t, ⟨ht, hc⟩, rfl⟩
    exact ⟨hd, (exists_coalesceNotNull_joinedTuples lookup d fields).mp ⟨t, ht, hc⟩⟩
  · rintro ⟨hr, hmatch⟩
    rcases (exists_coalesceNotNull_joinedTuples lookup r fields).mpr hmatch with ⟨t, ht, hc⟩
    exact ⟨r, hr, t, ⟨ht, hc⟩, rfl⟩

/-- With an empty denylist the sandbox join selects no rows. -/
theorem evalSandboxJoin_nil_lookup (fields : List String) (rows : List Row) :
    evalSandboxJoin [] fields rows = [] := by
  rw [List.eq_nil_iff_forall_not_mem]
  intro r hr
  rcases (mem_evalSandboxJoin [] fields rows r).mp hr with ⟨_, _, _, c, hc, _⟩
  simp at hc

/-- One driving row survives the `s.id IS NULL` filter exactly when no
sandbox row shares its identifier. -/
theorem sandboxIdJoinColumn_elim (sandbox_rows : List Row) (d : Row) :
    ((sandboxIdJoinColumn sandbox_rows d).filter (fun o => o.isNone)).map
        (fun _ => d) =
      if sandbox_rows.any (fun s => s.id == d.id) then [] else [d] := by
  unfold sandboxIdJoinColumn
  by_cases h : (sandbox_rows.filter (fun s => s.id == d.id)).isEmpty
  · have hany : sandbox_rows.any (fun s => s.id == d.id) = false := by
      rw [List.isEmpty_iff, List.filter_eq_nil_iff] at h
      rw [List.any_eq_false]
      intro s hs
      simpa using h s hs
    rw [if_pos h, hany]
    simp
  · have hany : sandbox_rows.any (fun s => s.id == d.id) = true := by
      rw [List.any_eq_true]
      rcases List.exists_mem_of_ne_nil _ (by simpa [List.isEmpty_iff] using h :
        sandbox_rows.filter (fun s => s.id == d.id) ≠ []) with ⟨s, hs⟩
      rcases List.mem_filter.mp hs with ⟨hsl, hsv⟩
      exact ⟨s, hsl, hsv⟩
    rw [if_neg h, hany, if_pos rfl]
    simp [List.filter_map, Function.comp]

/-- The suppression join keeps exactly the domain rows whose identifier
does not occur among the sandbox rows. -/
theorem evalSuppressionJoin_eq_filter (domain_rows sandbox_rows : List Row) :
    evalSuppressionJoin domain_rows sandbox_rows =
      domain_rows.filter (fun d => !(sandbox_rows.any (fun s => s.id == d.id))) := by
  induction domain_rows with
  | nil => rfl
  | cons d ds ih =>
      unfold evalSuppressionJoin at ih ⊢
      rw [List.flatMap_cons, sandboxIdJoinColumn_elim, ih, List.filter_cons]
      cases hany : sandbox_rows.any (fun s => s.id == d.id) <;> simp [hany]

/-- The resolver's list comprehension returns the `table_id` column of the
metadata result unchanged. -/
theorem metadataQueryRows_map_table_id (dataset_table_ids table_names : List String) :
    (metadataQueryRows dataset_table_ids table_names).map
        (fun row => row.table_id) =
      dataset_table_ids.filter (fun t => table_names.contains t) := by
  unfold metadataQueryRows
  rw [List.map_map]
  exact List.map_id'' (fun x => rfl) _

/-- C1: for every affected table (with at least one concept-id column) and
every denylist, the sandbox query produced by `get_sandbox_query` — in both
the lookup-table and the in-memory variant — selects exactly those rows of
the table for which at least one concept-id column equals some denylisted
concept identifier (OR over the columns), and for an empty denylist it
selects no rows. -/
theorem C1_sandbox_query_or_semantics
    (get_concept_id_fields : String → List String)
    (rb : AbstractBqLookupTableConceptSuppression)
    (rm : AbstractInMemoryLookupTableConceptSuppression)
    (table_name : String) (lookup_env : String → List Int)
    (db : String → String → List Row)
    (hfields : get_concept_id_fields table_name ≠ []) :
    (∀ r, r ∈ evalQuery (bq_lookup_get_sandbox_query get_concept_id_fields rb
        table_name).query lookup_env db ↔
      (r ∈ db rb.dataset_id table_name ∧
        ∃ f ∈ get_concept_id_fields table_name,
          ∃ c ∈ lookup_env rb.concept_suppression_lookup_table,
            r.concepts f = some c)) ∧
    (lookup_env rb.concept_suppression_lookup_table = [] →
      evalQuery (bq_lookup_get_sandbox_query get_concept_id_fields rb
        table_name).query lookup_env db = []) ∧
    (∀ r, r ∈ evalQuery (in_memory_get_sandbox_query get_concept_id_fields rm
        table_name).query lookup_env db ↔
      (r ∈ db rm.dataset_id table_name ∧
        ∃ f ∈ get_concept_id_fields table_name,
          ∃ c ∈ rm.get_suppressed_concept_ids, r.concepts f = some c)) ∧
    (rm.get_suppressed_concept_ids = [] →
      evalQuery (in_memory_get_sandbox_query get_concept_id_fields rm
        table_name).query lookup_env db = []) := by
  refine ⟨?_, ?_, ?_, ?_⟩
  · intro r
    exact mem_evalSandboxJoin _ _ _ _
  · intro h
    show evalSandboxJoin (lookup_env rb.concept_suppression_lookup_table) _ _ = []
    rw [h]
    exact evalSandboxJoin_nil_lookup _ _
  · intro r
    exact mem_evalSandboxJoin _ _ _ _
  · intro h
    show evalSandboxJoin rm.get_suppressed_concept_ids _ _ = []
    rw [h]
    exact evalSandboxJoin_nil_lookup _ _

/-- Witness for C1, instantiated at the demo schema: the demo row (whose
second concept column holds the denylisted concept 99) is selected. -/
theorem C1_witness :
    demoGetFields "condition_occurrence" ≠ [] ∧
    (demoRow ∈ evalQuery (in_memory_get_sandbox_query demoGetFields
        demoInMemoryRule "condition_occurrence").query demoLookupEnv demoDb ↔
      (demoRow ∈ demoDb demoInMemoryRule.dataset_id "condition_occurrence" ∧
        ∃ f ∈ demoGetFields "condition_occurrence",
          ∃ c ∈ demoInMemoryRule.get_suppressed_concept_ids,
            demoRow.concepts f = some c)) :=
  ⟨by simp [demoGetFields],
    (C1_sandbox_query_or_semantics demoGetFields demoBqRule demoInMemoryRule
      "condition_occurrence" demoLookupEnv demoDb
      (by simp [demoGetFields])).2.2.1 demoRow⟩

/-- C2: `get_query_specs` returns at least `3 * |T|` QuerySpecs for the
resolved table list `T`, grouped as all sandbox specs (one per table, in
T's order), then all suppression specs (one per table, in T's order), then
cleanup specs for empty sandbox tables. -/
theorem C2_get_query_specs_grouping (r : AbstractConceptSuppression) :
    3 * r.affected_tables.length ≤ (get_query_specs r).length ∧
    (get_query_specs r).take r.affected_tables.length =
      r.affected_tables.map (fun table_name => r.get_sandbox_query table_name) ∧
    ((get_query_specs r).drop r.affected_tables.length).take
        r.affected_tables.length =
      r.affected_tables.map (fun table_name => get_suppression_query r table_name) ∧
    ((get_query_specs r).drop (2 * r.affected_tables.length)).all isCleanupSpec =
      true := by
  have hs : (r.affected_tables.map (fun t => r.get_sandbox_query t)).length =
      r.affected_tables.length := List.length_map _ _
  have hq : (r.affected_tables.map (fun t => get_suppression_query r t)).length =
      r.affected_tables.length := List.length_map _ _
  refine ⟨?_, ?_, ?_, ?_⟩
  · simp only [get_query_specs, get_delete_empty_sandbox_tables_queries,
      get_sandbox_tablenames, List.length_append, List.length_map]
    omega
  · unfold get_query_specs
    rw [List.append_assoc, List.take_left' hs]
  · unfold get_query_specs
    rw [List.append_assoc, List.drop_left' hs, List.take_left' hq]
  · unfold get_query_specs
    have hsq : ((r.affected_tables.map (fun t => r.get_sandbox_query t)) ++
        (r.affected_tables.map (fun t => get_suppression_query r t))).length =
        2 * r.affected_tables.length := by
      rw [List.length_append, hs, hq]
      omega
    rw [List.drop_left' hsq, List.all_eq_true]
    intro spec hspec
    unfold get_delete_empty_sandbox_tables_queries at hspec
    rcases List.mem_map.mp hspec with ⟨t, _, rfl⟩
    rfl

/-- C3: after construction, `affected_tables` contains exactly those input
tables (kept in input order, witnessed by the sublist relation) that both
declare at least one concept-id column and have a recognized per-row
identifier column; tables failing either condition are dropped without any
error (the filter is a total function). -/
theorem C3_affected_tables_filter (get_concept_id_fields : String → List String)
    (has_domain_table_id : String → Bool) (input_tables : List String) :
    (filter_affected_tables get_concept_id_fields has_domain_table_id
      input_tables).Sublist input_tables ∧
    ∀ t, t ∈ filter_affected_tables get_concept_id_fields has_domain_table_id
        input_tables ↔
      (t ∈ input_tables ∧ get_concept_id_fields t ≠ [] ∧
        has_domain_table_id t = true) := by
  constructor
  · exact List.filter_sublist _
  · intro t
    simp [filter_affected_tables, List.mem_filter, and_assoc]

/-- C4: `get_suppression_query` returns a QuerySpec whose query selects
exactly the rows of the original table whose per-row identifier does not
appear in the table's sandbox table, written back to the original table in
the original dataset with WRITE_TRUNCATE disposition. -/
theorem C4_suppression_query_semantics (r : AbstractConceptSuppression)
    (table_name : String) (lookup_env : String → List Int)
    (db : String → String → List Row) :
    (get_suppression_query r table_name).destination_dataset = some r.dataset_id ∧
    (get_suppression_query r table_name).destination_table = some table_name ∧
    (get_suppression_query r table_name).disposition =
      some Disposition.WRITE_TRUNCATE ∧
    evalQuery (get_suppression_query r table_name).query lookup_env db =
      (db r.dataset_id table_name).filter
        (fun d => !((db r.sandbox_dataset_id (sandbox_table_for table_name)).any
          (fun s => s.id == d.id))) := by
  refine ⟨rfl, rfl, rfl, ?_⟩
  show evalSuppressionJoin (db r.dataset_id table_name)
      (db r.sandbox_dataset_id (sandbox_table_for table_name)) = _
  exact evalSuppressionJoin_eq_filter _ _

/-- C5: the claim says an engine error from `query_job.result()` is logged
with the job identifier and re-raised unchanged.  In the source the
`except` block's f-string reads the local `result`, which was never
assigned on this path, so the call raises `UnboundLocalError` instead of
logging and re-raising the original error. -/
theorem C5_error_path_unbound_local :
    get_tables_in_dataset
        { result := Except.error (EngineError.googleCloudError "transport failure")
          errors := none } = GetTablesOutcome.unboundLocalError ∧
    ∀ (e : EngineError) (errs : Option (List String)),
      get_tables_in_dataset { result := Except.error e, errors := errs } ≠
        GetTablesOutcome.reraised e := by
  refine ⟨rfl, ?_⟩
  intro e errs
  simp [get_tables_in_dataset]

/-- C6: the claim says embedded job errors are surfaced as a RuntimeError
wrapping the error detail.  In the source `RuntimeError(result.errors)`
reads `errors` off the rows object returned by `result()`, which has no
such attribute, so an `AttributeError` escapes instead of the claimed
RuntimeError. -/
theorem C6_embedded_errors_attribute_error :
    get_tables_in_dataset
        { result := Except.ok [⟨"person"⟩]
          errors := some ["embedded error detail"] } =
      GetTablesOutcome.attributeError "errors" ∧
    ∀ details : List String,
      get_tables_in_dataset
          { result := Except.ok [⟨"person"⟩]
            errors := some ["embedded error detail"] } ≠
        GetTablesOutcome.runtimeError details := by
  refine ⟨rfl, ?_⟩
  intro details
  simp [get_tables_in_dataset, jobErrorsTruthy]

/-- C7: on the successful path, `get_tables_in_dataset` returns exactly the
`table_id` values of the metadata query result, so every returned name is
an element of the candidate list and occurs no more often than in the
metadata result. -/
theorem C7_resolver_subset (dataset_table_ids table_names : List String) :
    ∃ out,
      get_tables_in_dataset
          { result := Except.ok (metadataQueryRows dataset_table_ids table_names)
            errors := none } = GetTablesOutcome.ok out ∧
      out.all (fun t => table_names.contains t) = true ∧
      ∀ x, out.count x =
        ((metadataQueryRows dataset_table_ids table_names).map
          (fun row => row.table_id)).count x := by
  refine ⟨dataset_table_ids.filter (fun t => table_names.contains t), ?_, ?_, ?_⟩
  · rw [show get_tables_in_dataset
          { result := Except.ok (metadataQueryRows dataset_table_ids table_names)
            errors := none } =
        GetTablesOutcome.ok ((metadataQueryRows dataset_table_ids
          table_names).map (fun row => row.table_id)) from rfl,
      metadataQueryRows_map_table_id]
  · rw [List.all_eq_true]
    intro t ht
    exact (List.mem_filter.mp ht).2
  · intro x
    rw [metadataQueryRows_map_table_id]

/-- C8: when the persisted lookup table holds exactly the concept ids of
`get_suppressed_concept_ids`, the two variants' `get_sandbox_query` results
select the same set of rows and share destination table, destination
dataset and write disposition. -/
theorem C8_lookup_in_memory_equivalent
    (get_concept_id_fields : String → List String)
    (rb : AbstractBqLookupTableConceptSuppression)
    (rm : AbstractInMemoryLookupTableConceptSuppression)
    (table_name : String) (lookup_env : String → List Int)
    (db : String → String → List Row)
    (hdataset : rb.dataset_id = rm.dataset_id)
    (hsandbox : rb.sandbox_dataset_id = rm.sandbox_dataset_id)
    (hcontents : ∀ c, c ∈ lookup_env rb.concept_suppression_lookup_table ↔
      c ∈ rm.get_suppressed_concept_ids) :
    (∀ r, r ∈ evalQuery (bq_lookup_get_sandbox_query get_concept_id_fields rb
        table_name).query lookup_env db ↔
      r ∈ evalQuery (in_memory_get_sandbox_query get_concept_id_fields rm
        table_name).query lookup_env db) ∧
    (bq_lookup_get_sandbox_query get_concept_id_fields rb
        table_name).destination_table =
      (in_memory_get_sandbox_query get_concept_id_fields rm
        table_name).destination_table ∧
    (bq_lookup_get_sandbox_query get_concept_id_fields rb
        table_name).destination_dataset =
      (in_memory_get_sandbox_query get_concept_id_fields rm
        table_name).destination_dataset ∧
    (bq_lookup_get_sandbox_query get_concept_id_fields rb
        table_name).disposition =
      (in_memory_get_sandbox_query get_concept_id_fields rm
        table_name).disposition := by
  refine ⟨?_, rfl, ?_, rfl⟩
  · intro r
    show r ∈ evalSandboxJoin (lookup_env rb.concept_suppression_lookup_table)
        (get_concept_id_fields table_name) (db rb.dataset_id table_name) ↔
      r ∈ evalSandboxJoin rm.get_suppressed_concept_ids
        (get_concept_id_fields table_name) (db rm.dataset_id table_name)
    rw [mem_evalSandboxJoin, mem_evalSandboxJoin, hdataset]
    constructor
    · rintro ⟨hr, f, hf, c, hc, hv⟩
      exact ⟨hr, f, hf, c, (hcontents c).mp hc, hv⟩
    · rintro ⟨hr, f, hf, c, hc, hv⟩
      exact ⟨hr, f, hf, c, (hcontents c).mpr hc, hv⟩
  · show some rb.sandbox_dataset_id = some rm.sandbox_dataset_id
    rw [hsandbox]

/-- Witness for C8, at the demo rules whose lookup table holds exactly the
in-memory denylist `[99]`. -/
theorem C8_witness :
    (demoRow ∈ evalQuery (bq_lookup_get_sandbox_query demoGetFields demoBqRule
        "condition_occurrence").query demoLookupEnv demoDb ↔
      demoRow ∈ evalQuery (in_memory_get_sandbox_query demoGetFields
        demoInMemoryRule "condition_occurrence").query demoLookupEnv demoDb) ∧
    (bq_lookup_get_sandbox_query demoGetFields demoBqRule
        "condition_occurrence").destination_dataset =
      (in_memory_get_sandbox_query demoGetFields demoInMemoryRule
        "condition_occurrence").destination_dataset := by
  have h := C8_lookup_in_memory_equivalent demoGetFields demoBqRule
    demoInMemoryRule "condition_occurrence" demoLookupEnv demoDb rfl rfl
    (by intro c; simp [demoLookupEnv, demoInMemoryRule, demoBqRule])
  exact ⟨h.1 demoRow, h.2.2.1⟩

/-- C9: when either environment variable is absent, `post_message` raises
the distinct configuration-error kind `SlackConfigurationError` and
performs no network call (the network trace is empty); delivery failures
are the separate `apiError` kind. -/
theorem C9_post_message_config_error (env : Slack.SlackEnv) (text : String)
    (h : env.environ Slack.SLACK_TOKEN = none ∨
      env.environ Slack.SLACK_CHANNEL = none) :
    (Slack.post_message env text).1 = [] ∧
    ∃ msg, (Slack.post_message env text).2 =
      Except.error (Slack.SlackFailure.configurationError msg) := by
  rcases h with h | h
  · simp [Slack.post_message, Slack.get_slack_client, Slack.get_slack_token, h]
  · cases htok : env.environ Slack.SLACK_TOKEN with
    | none =>
        simp [Slack.post_message, Slack.get_slack_client, Slack.get_slack_token,
          htok]
    | some tok =>
        simp [Slack.post_message, Slack.get_slack_client, Slack.get_slack_token,
          Slack.get_slack_channel_name, htok, h]

/-- Witness for C9, at an environment with neither variable set. -/
theorem C9_witness :
    (Slack.post_message demoSlackEnvNoConfig "hello").1 = [] ∧
    ∃ msg, (Slack.post_message demoSlackEnvNoConfig "hello").2 =
      Except.error (Slack.SlackFailure.configurationError msg) :=
  C9_post_message_config_error demoSlackEnvNoConfig "hello" (Or.inl rfl)

/-- C10: `is_channel_available` never raises: it is a total function into
`Bool`; on missing configuration or a Slack API failure it logs the error
(non-empty log trace) and returns `false`, and it returns `true` exactly
when both variables are set, the channel listing succeeds with status code
200, and a listed channel name equals the configured one. -/
theorem C10_is_channel_available_characterisation (env : Slack.SlackEnv) :
    ((Slack.is_channel_available env).2 = true ↔
      ((∃ tok, env.environ Slack.SLACK_TOKEN = some tok) ∧
        ∃ ch, env.environ Slack.SLACK_CHANNEL = some ch ∧
          ∃ response, env.conversations_list = Except.ok response ∧
            response.status_code = 200 ∧ ch ∈ response.channels)) ∧
    ((env.environ Slack.SLACK_TOKEN = none ∨
        env.environ Slack.SLACK_CHANNEL = none ∨
        (∃ e, env.conversations_list = Except.error e)) →
      (Slack.is_channel_available env).2 = false ∧
      (Slack.is_channel_available env).1 ≠ []) := by
  cases htok : env.environ Slack.SLACK_TOKEN with
  | none =>
      constructor
      · simp [Slack.is_channel_available, Slack.get_slack_client,
          Slack.get_slack_token, htok]
      · intro _
        simp [Slack.is_channel_available, Slack.get_slack_client,
          Slack.get_slack_token, htok]
  | some tok =>
      cases hch : env.environ Slack.SLACK_CHANNEL with
      | none =>
          constructor
          · simp [Slack.is_channel_available, Slack.get_slack_client,
              Slack.get_slack_token, Slack.get_slack_channel_name, htok, hch]
          · intro _
            simp [Slack.is_channel_available, Slack.get_slack_client,
              Slack.get_slack_token, Slack.get_slack_channel_name, htok, hch]
      | some ch =>
          cases hconv : env.conversations_list with
          | error e =>
              constructor
              · simp [Slack.is_channel_available, Slack.get_slack_client,
                  Slack.get_slack_token, Slack.get_slack_channel_name, htok, hch,
                  hconv]
              · intro _
                simp [Slack.is_channel_available, Slack.get_slack_client,
                  Slack.get_slack_token, Slack.get_slack_channel_name, htok, hch,
                  hconv]
          | ok response =>
              have hres : Slack.is_channel_available env =
                  (if response.status_code == 200 &&
                      response.channels.contains ch then ([], true)
                  else ([], false)) := by
                simp [Slack.is_channel_available, Slack.get_slack_client,
                  Slack.get_slack_token, Slack.get_slack_channel_name, htok, hch,
                  hconv]
              constructor
              · rw [hres]
                by_cases hcond : (response.status_code == 200 &&
                    response.channels.contains ch) = true
                · rw [if_pos hcond]
                  simp only [Bool.and_eq_true, beq_iff_eq] at hcond
                  simp only [true_iff]
                  exact ⟨⟨tok, rfl⟩, ch, rfl, response, rfl, hcond.1,
                    List.elem_iff.mp hcond.2⟩
                · rw [if_neg hcond]
                  simp only [Bool.false_eq_true, false_iff]
                  rintro ⟨-, ch', hch', response', hconv', hstatus, hmem⟩
                  injection hch' with hch'
                  injection hconv' with hconv'
                  subst hch'
                  subst hconv'
                  exact hcond (by simp [hstatus, List.elem_iff, hmem])
              · rintro (hbad | hbad | ⟨e, hbad⟩)
                · exact absurd hbad (by simp)
                · exact absurd hbad (by simp)
                · exact absurd hbad (by simp)

/-- Witness for C10, at an environment with neither variable set: the call
returns `false` and logs the configuration error. -/
theorem C10_witness :
    (Slack.is_channel_available demoSlackEnvNoConfig).2 = false ∧
    (Slack.is_channel_available demoSlackEnvNoConfig).1 ≠ [] :=
  (C10_is_channel_available_characterisation demoSlackEnvNoConfig).2 (Or.inl rfl)

end Curation
